import Mathlib

/-!
Verification of the command entry-point adapter in `src/bin/cmd.js`.

The file shallow-embeds the two functions of the source:

* `parseYargs` (cmd.js lines 20-38): the wrapper that guarantees the parse
  completion callback fires exactly once even when `yargs.parse` throws.
* `modulenameCmd` (cmd.js lines 67-180): the entry point, which validates
  `args`/`options`, normalizes the two calling styles (callback / promise),
  parses, and dispatches to the wrapped library function.

External collaborators are parameters, following their contracts from the
source and spec:

* the parsing collaborator (yargs, configured at cmd.js lines 129-146) is a
  parameter `parse : List String → ParseResult`;
* the wrapped library function `modulename` is a parameter
  `wrapped : CmdOpts → CbRes` (it invokes the completion callback exactly
  once, per the documented contract `callback(error?, resultCode?)`).

Side effects (stream writes, callback invocations, the call to the wrapped
function) are recorded as an explicit trace of `Effect`s.  Stream writes and
the caller's callback are assumed not to throw, as in the collaborator
contracts.
-/

/-- A JavaScript `Error` value: its `name` and `message` (the only fields the
dispatcher reads, at cmd.js line 151). -/
structure JsError where
  name : String
  message : String
deriving DecidableEq, Repr

/-- Primitive JavaScript values that can appear as entries of the raw
argument array; `String(v)` (cmd.js line 95) is modelled by `jsToString`. -/
inductive JsVal where
  | str (s : String)
  | num (n : Int)
  | boolean (b : Bool)
deriving DecidableEq, Repr

/-- JavaScript stringification `String(v)` for the modelled primitives. -/
def jsToString : JsVal → String
  | .str s => s
  | .num n => toString n
  | .boolean b => if b then "true" else "false"

/-- The `args` argument of the entry point (cmd.js lines 87-96).
`notArrayLike` stands for any value with `typeof args !== 'object'` or a
non-integer `length`; `arrayLike elems` is an array-like whose entries are
`elems` (so its `length` is `elems.length`). -/
inductive ArgsVal where
  | undef
  | nullv
  | notArrayLike
  | arrayLike (elems : List JsVal)
deriving DecidableEq, Repr

/-- A stream-valued property of the options object, as seen after
`object-assign` merges it over the process-default streams
(cmd.js lines 102-109).  `missing`: the property is absent, so the default
stream (which has the required methods) is used.  `falsyVal`: a falsy value
was supplied, failing the `!options.x` test (cmd.js lines 111-118).
`handle hasOn hasWrite`: a truthy value with or without an `on` / `write`
method. -/
inductive StreamProp where
  | missing
  | falsyVal
  | handle (hasOn : Bool) (hasWrite : Bool)
deriving DecidableEq, Repr

/-- The stream overrides carried by an options object (`in`, `out`, `err`;
`in` is a Lean keyword, hence the `S` suffixes). -/
structure StreamOpts where
  inS : StreamProp
  outS : StreamProp
  errS : StreamProp
deriving DecidableEq, Repr

/-- The `options` argument of the entry point.  `nullv` passes the
`typeof options !== 'object'` test (cmd.js line 98) since
`typeof null === 'object'`, and `object-assign` ignores it, so defaults
apply.  `fnOpt` is a function value (shuffled into the callback position at
cmd.js lines 68-71 when the callback is falsy, otherwise failing the typeof
test).  `nonObject` is any other non-object value. -/
inductive OptionsArg where
  | undef
  | nullv
  | fnOpt
  | nonObject
  | obj (o : StreamOpts)
deriving DecidableEq, Repr

/-- The `callback` argument.  `falsy` covers `undefined` (omitted), `null`
and the other falsy values, which the code treats as omitted via the
`!callback` tests (cmd.js lines 68, 73); `truthyNotFn` is a truthy
non-function value, which reaches the `typeof callback !== 'function'` throw
(cmd.js line 82). -/
inductive CallbackArg where
  | fn
  | truthyNotFn
  | falsy
deriving DecidableEq, Repr

/-- Validation of `args` (cmd.js lines 87-96): `undefined`/`null` normalize
to an empty token list; non-array-like values raise `TypeError`; array-like
values shorter than 2 raise `RangeError`; otherwise the first two entries
are dropped and the rest stringified. -/
def validateArgs : ArgsVal → Except JsError (List String)
  | .undef => .ok []
  | .nullv => .ok []
  | .notArrayLike => .error ⟨"TypeError", "args must be Array-like"⟩
  | .arrayLike elems =>
      if elems.length < 2 then
        .error ⟨"RangeError", "args must have at least 2 elements"⟩
      else
        .ok ((elems.drop 2).map jsToString)

/-- Capability test for the input stream: truthy with an `on` method
(cmd.js line 111); the default `process.stdin` qualifies. -/
def checkOn : StreamProp → Bool
  | .missing => true
  | .falsyVal => false
  | .handle hasOn _ => hasOn

/-- Capability test for an output stream: truthy with a `write` method
(cmd.js lines 114, 117); the defaults `process.stdout`/`process.stderr`
qualify. -/
def checkWrite : StreamProp → Bool
  | .missing => true
  | .falsyVal => false
  | .handle _ hasWrite => hasWrite

/-- Validation of `options` (cmd.js lines 98-119): a defined non-object is a
`TypeError`; after merging over the defaults, each stream must pass its
capability check, tested in the order `in`, `out`, `err`. -/
def validateOptions : OptionsArg → Except JsError Unit
  | .undef => .ok ()
  | .nullv => .ok ()
  | .fnOpt => .error ⟨"TypeError", "options must be an object"⟩
  | .nonObject => .error ⟨"TypeError", "options must be an object"⟩
  | .obj o =>
      if ¬ checkOn o.inS then
        .error ⟨"TypeError", "options.in must be a stream.Readable"⟩
      else if ¬ checkWrite o.outS then
        .error ⟨"TypeError", "options.out must be a stream.Writable"⟩
      else if ¬ checkWrite o.errS then
        .error ⟨"TypeError", "options.err must be a stream.Writable"⟩
      else
        .ok ()

/-- The structured result of a successful parse (yargs `argOpts`):
the terminal flags, the two counters, and the positional arguments
(`argOpts._`, here `positional`). -/
structure ArgOpts where
  help : Bool
  version : Bool
  quiet : Nat
  verbose : Nat
  positional : List String
deriving DecidableEq, Repr

/-- Outcome of the parsing collaborator as delivered to the parse callback
`(err, argOpts, output)` (cmd.js line 147).  `output = ""` models a falsy /
absent `output` (the code only tests its truthiness).  A parse in which
yargs throws before completing is delivered by `parseYargs` as a `failure`
with empty output. -/
inductive ParseResult where
  | success (opts : ArgOpts) (output : String)
  | failure (e : JsError) (output : String)
deriving DecidableEq, Repr

/-- The call-options object handed to the wrapped library function
(cmd.js lines 172-175). -/
structure CmdOpts where
  files : List String
  verbosity : Int
deriving DecidableEq, Repr

/-- What a completion callback invocation carries: `failure e` is
`callback(err)`, `exit code` is `callback(null, code)`. -/
inductive CbRes where
  | failure (e : JsError)
  | exit (code : Int)
deriving DecidableEq, Repr

/-- One observable side effect of the dispatcher.  `cbCall res viaNextTick`
records an invocation of the caller's completion callback; `viaNextTick`
is true when the code defers it with `process.nextTick`
(cmd.js lines 121-123). -/
inductive Effect where
  | errWrite (s : String)
  | outWrite (s : String)
  | wrappedCall (opts : CmdOpts)
  | cbCall (res : CbRes) (viaNextTick : Bool)
deriving DecidableEq, Repr

/-- The parse-completion handler (cmd.js lines 147-177): on error, write the
rendered output if truthy, else the error's name and message, then exit 1;
on success write any rendered output, short-circuit on help/version with
exit 0, reject a positional count other than 1 with exit 1, otherwise call
the wrapped function with the built `CmdOpts`, whose completion report
becomes the callback invocation. -/
def parseHandler (wrapped : CmdOpts → CbRes) : ParseResult → List Effect
  | .failure e output =>
      [ .errWrite (if output ≠ "" then output ++ "\n"
                   else e.name ++ ": " ++ e.message ++ "\n"),
        .cbCall (.exit 1) false ]
  | .success opts output =>
      (if output ≠ "" then [Effect.outWrite (output ++ "\n")] else []) ++
      (if opts.help || opts.version then
        [Effect.cbCall (.exit 0) false]
      else if opts.positional.length ≠ 1 then
        [ Effect.errWrite "Error: Exactly one argument is required.\n",
          Effect.cbCall (.exit 1) false ]
      else
        [ Effect.wrappedCall ⟨opts.positional, (opts.verbose : Int) - (opts.quiet : Int)⟩,
          Effect.cbCall (wrapped ⟨opts.positional, (opts.verbose : Int) - (opts.quiet : Int)⟩)
            false ])

/-- The body of the entry point once the callback is known to be a function
(cmd.js lines 86-179): validate `args` then `options`, delivering a
validation error via `process.nextTick(callback)`; otherwise parse the
tokens and run the parse-completion handler. -/
def runCallbackMode (parse : List String → ParseResult) (wrapped : CmdOpts → CbRes)
    (args : ArgsVal) (options : OptionsArg) : List Effect :=
  match validateArgs args with
  | .error e => [.cbCall (.failure e) true]
  | .ok tokens =>
      match validateOptions options with
      | .error e => [.cbCall (.failure e) true]
      | .ok _ => parseHandler wrapped (parse tokens)

/-- Settlement state of the promise returned in deferred style: it resolves
with the exit code, rejects with the error, or (were the callback never
invoked) stays pending. -/
inductive PromiseOutcome where
  | pending
  | resolves (code : Int)
  | rejects (e : JsError)
deriving DecidableEq, Repr

/-- What a call of the entry point does: throw synchronously, return a
promise (carrying the effects of the internal callback-style run), or
return `undefined` having scheduled the callback-style effects. -/
inductive EntryOutcome where
  | thrown (e : JsError)
  | promised (p : PromiseOutcome) (effects : List Effect)
  | returned (effects : List Effect)
deriving DecidableEq, Repr

/-- The first completion-callback invocation recorded in a trace. -/
def completionOf (effects : List Effect) : Option CbRes :=
  (effects.filterMap fun ef => match ef with
    | .cbCall r _ => some r
    | _ => none).head?

/-- The arguments of every call to the wrapped function in a trace. -/
def wrappedCalls (effects : List Effect) : List CmdOpts :=
  effects.filterMap fun ef => match ef with
    | .wrappedCall o => some o
    | _ => none

/-- The texts written to the error stream in a trace, in order. -/
def errWrites (effects : List Effect) : List String :=
  effects.filterMap fun ef => match ef with
    | .errWrite s => some s
    | _ => none

/-- The texts written to the output stream in a trace, in order. -/
def outWrites (effects : List Effect) : List String :=
  effects.filterMap fun ef => match ef with
    | .outWrite s => some s
    | _ => none

/-- How the promise built at cmd.js lines 75-79 settles: `reject(err)` on a
callback error, `resolve(result)` otherwise. -/
def promiseOf (effects : List Effect) : PromiseOutcome :=
  match completionOf effects with
  | none => .pending
  | some (.failure e) => .rejects e
  | some (.exit c) => .resolves c

/-- The entry point `modulenameCmd` (cmd.js lines 67-180).  A falsy callback
with a function in the options position is shuffled (lines 68-71); a falsy
callback with `Promise` available returns a promise wrapping a recursive
callback-style call (lines 73-80); a remaining non-function callback throws
(lines 82-84); otherwise the callback-style body runs and `undefined` is
returned (lines 86-179). -/
def modulenameCmd (parse : List String → ParseResult) (wrapped : CmdOpts → CbRes)
    (args : ArgsVal) (options : OptionsArg) (callback : CallbackArg)
    (promiseAvailable : Bool) : EntryOutcome :=
  let oc : OptionsArg × CallbackArg :=
    match callback, options with
    | .falsy, .fnOpt => (.nullv, .fn)
    | c, o => (o, c)
  match oc.2 with
  | .fn => .returned (runCallbackMode parse wrapped args oc.1)
  | .falsy =>
      if promiseAvailable then
        let effects := runCallbackMode parse wrapped args oc.1
        .promised (promiseOf effects) effects
      else .thrown ⟨"TypeError", "callback must be a function"⟩
  | .truthyNotFn => .thrown ⟨"TypeError", "callback must be a function"⟩

/-- The argument vector yargs hands to its parse callback:
`(err, argOpts, output)`.  The error-recovery path of `parseYargs`
(cmd.js line 35) invokes the callback with the caught error only, modelled
as `⟨some e, none, ""⟩`. -/
structure ParseCbArgs where
  err : Option JsError
  result : Option ArgOpts
  output : String
deriving DecidableEq, Repr

/-- Synchronous behaviour of one `yargs.parse(args, cb)` call (the
collaborator of cmd.js line 26): it completes by invoking `cb` once and
returning, completes and then throws on the way out, or throws before ever
invoking `cb`. -/
inductive YargsParseBehavior where
  | completes (r : ParseCbArgs)
  | completesThenThrows (r : ParseCbArgs) (e : JsError)
  | throwsBefore (e : JsError)
deriving DecidableEq, Repr

/-- What the outer callback does when invoked: return normally or throw. -/
inductive CbAct where
  | ok
  | throws (e : JsError)
deriving DecidableEq, Repr

/-- Observable result of a `parseYargs` run: the callback invocations that
occurred, and the exception (if any) that propagated to the caller. -/
structure ParseYargsRun where
  calls : List ParseCbArgs
  thrown : Option JsError
deriving DecidableEq, Repr

/-- `parseYargs` (cmd.js lines 20-38): call `yargs.parse` with a wrapper
that records (`called = true`) whether the callback fired.  A caught
exception is re-thrown when the callback had already fired (it was thrown
after or by the callback, line 33) and is otherwise delivered to the
callback (line 35); an exception the callback throws from the recovery path
propagates. -/
def parseYargs (b : YargsParseBehavior) (cb : ParseCbArgs → CbAct) : ParseYargsRun :=
  match b with
  | .completes r =>
      match cb r with
      | .ok => ⟨[r], none⟩
      | .throws e => ⟨[r], some e⟩
  | .completesThenThrows r e =>
      match cb r with
      | .ok => ⟨[r], some e⟩
      | .throws e' => ⟨[r], some e'⟩
  | .throwsBefore e =>
      match cb ⟨some e, none, ""⟩ with
      | .ok => ⟨[⟨some e, none, ""⟩], none⟩
      | .throws e' => ⟨[⟨some e, none, ""⟩], some e'⟩

/-! ## Helper lemmas -/

/-- With a function callback, the entry point returns `undefined` after
running the callback-style body: the options shuffle never fires and the
promise branch is skipped. -/
theorem modulenameCmd_fn (parse : List String → ParseResult) (wrapped : CmdOpts → CbRes)
    (args : ArgsVal) (options : OptionsArg) (pa : Bool) :
    modulenameCmd parse wrapped args options .fn pa =
      .returned (runCallbackMode parse wrapped args options) := by
  cases options <;> rfl

/-- When both validations pass, the callback-style body is exactly the
parse-completion handler applied to the parse of the normalized tokens. -/
theorem runCallbackMode_parse (parse : List String → ParseResult) (wrapped : CmdOpts → CbRes)
    (args : ArgsVal) (options : OptionsArg) (tokens : List String)
    (hargs : validateArgs args = .ok tokens)
    (hopts : validateOptions options = .ok ()) :
    runCallbackMode parse wrapped args options = parseHandler wrapped (parse tokens) := by
  simp [runCallbackMode, hargs, hopts]

/-- Every parse-completion handler trace invokes the caller's callback. -/
theorem completionOf_parseHandler (wrapped : CmdOpts → CbRes) (r : ParseResult) :
    ∃ c, completionOf (parseHandler wrapped r) = some c := by
  cases r with
  | failure e output => exact ⟨.exit 1, rfl⟩
  | success opts output =>
      by_cases ho : output = "" <;>
        by_cases hh : (opts.help || opts.version) = true <;>
        by_cases hp : opts.positional.length = 1 <;>
        simp [parseHandler, completionOf, ho, hh, hp]

/-- Every callback-style run invokes the caller's callback (at least once in
the trace; exactness per path is proved in the claim theorems). -/
theorem completionOf_runCallbackMode (parse : List String → ParseResult)
    (wrapped : CmdOpts → CbRes) (args : ArgsVal) (options : OptionsArg) :
    ∃ c, completionOf (runCallbackMode parse wrapped args options) = some c := by
  unfold runCallbackMode
  cases hargs : validateArgs args with
  | error e => exact ⟨.failure e, rfl⟩
  | ok tokens =>
      cases hopts : validateOptions options with
      | error e => exact ⟨.failure e, rfl⟩
      | ok u => exact completionOf_parseHandler wrapped (parse tokens)

/-! ## Claim theorems -/

/-- C4: for every synchronous behaviour of `yargs.parse` and every outer
callback, the parse completion fires exactly once; when the throw happened
before the completion, the thrown error is delivered as the completion's
error argument; when the throw happened after (or from within) the
completion, the error propagates to the caller and the completion is not
invoked a second time. -/
theorem c4_parseYargs_exactly_once (b : YargsParseBehavior) (cb : ParseCbArgs → CbAct) :
    (parseYargs b cb).calls.length = 1 ∧
    (∀ e, b = .throwsBefore e → (parseYargs b cb).calls = [⟨some e, none, ""⟩]) ∧
    (∀ r e, b = .completesThenThrows r e → (parseYargs b cb).calls = [r] ∧
      (cb r = .ok → (parseYargs b cb).thrown = some e)) ∧
    (∀ r, b = .completes r → (parseYargs b cb).calls = [r] ∧
      (∀ e', cb r = .throws e' → (parseYargs b cb).thrown = some e')) := by
  cases b with
  | completes r => cases h : cb r <;> simp [parseYargs, h]
  | completesThenThrows r e => cases h : cb r <;> simp [parseYargs, h]
  | throwsBefore e => cases h : cb ⟨some e, none, ""⟩ <;> simp [parseYargs, h]

/-- C4 witness: a concrete run where yargs throws after its callback already
completed; the completion fired once and the late error propagates. -/
theorem c4_parseYargs_exactly_once_witness :
    (parseYargs (.completesThenThrows ⟨none, some ⟨false, false, 0, 0, ["a"]⟩, ""⟩
        ⟨"Error", "late"⟩) (fun _ => .ok)).calls =
      [⟨none, some ⟨false, false, 0, 0, ["a"]⟩, ""⟩] ∧
    (parseYargs (.completesThenThrows ⟨none, some ⟨false, false, 0, 0, ["a"]⟩, ""⟩
        ⟨"Error", "late"⟩) (fun _ => .ok)).thrown = some ⟨"Error", "late"⟩ := by
  have h := (c4_parseYargs_exactly_once
    (.completesThenThrows ⟨none, some ⟨false, false, 0, 0, ["a"]⟩, ""⟩ ⟨"Error", "late"⟩)
    (fun _ => .ok)).2.2.1 ⟨none, some ⟨false, false, 0, 0, ["a"]⟩, ""⟩ ⟨"Error", "late"⟩ rfl
  exact ⟨h.1, h.2 rfl⟩

/-- C10: a function passed in the options position with no callback is
treated as the completion callback with the options absent (`null`, so all
stream defaults apply and pass validation): the two-argument form behaves
identically to the three-argument form with a `null` options argument. -/
theorem c10_fn_as_options (parse : List String → ParseResult) (wrapped : CmdOpts → CbRes)
    (args : ArgsVal) (pa : Bool) :
    modulenameCmd parse wrapped args .fnOpt .falsy pa =
      .returned (runCallbackMode parse wrapped args .nullv) ∧
    modulenameCmd parse wrapped args .fnOpt .falsy pa =
      modulenameCmd parse wrapped args .nullv .fn pa ∧
    validateOptions .nullv = .ok () :=
  ⟨rfl, rfl, rfl⟩

/-- C9: the entry point throws exactly when the callback argument is truthy
but not a function, or is omitted (falsy) while options is not a function
and no Promise primitive is available; the thrown error is always the
TypeError `callback must be a function`. -/
theorem c9_throw_characterization (parse : List String → ParseResult)
    (wrapped : CmdOpts → CbRes) (args : ArgsVal) (options : OptionsArg)
    (callback : CallbackArg) (pa : Bool) :
    (modulenameCmd parse wrapped args options callback pa =
        .thrown ⟨"TypeError", "callback must be a function"⟩ ↔
      (callback = .truthyNotFn ∨
        (callback = .falsy ∧ options ≠ .fnOpt ∧ pa = false))) ∧
    (∀ e, modulenameCmd parse wrapped args options callback pa = .thrown e →
      e = ⟨"TypeError", "callback must be a function"⟩) := by
  cases callback <;> cases options <;> cases pa <;> simp [modulenameCmd]

/-- C9 witness: a truthy non-function callback throws the TypeError at a
concrete input. -/
theorem c9_throw_characterization_witness :
    modulenameCmd (fun _ => .success ⟨false, false, 0, 0, []⟩ "") (fun _ => .exit 0)
      .nullv .undef .truthyNotFn true =
      .thrown ⟨"TypeError", "callback must be a function"⟩ :=
  (c9_throw_characterization (fun _ => .success ⟨false, false, 0, 0, []⟩ "")
    (fun _ => .exit 0) .nullv .undef .truthyNotFn true).1.mpr (Or.inl rfl)

/-- C8: with a function callback, every validation failure (bad or too-short
`args`, non-object options, stream failing its capability check) is
delivered as an error through the completion callback via
`process.nextTick`, and the entry point returns normally rather than
throwing. -/
theorem c8_validation_deferred (parse : List String → ParseResult)
    (wrapped : CmdOpts → CbRes) (args : ArgsVal) (options : OptionsArg)
    (pa : Bool) (e : JsError)
    (h : validateArgs args = .error e ∨
      ((∃ tokens, validateArgs args = .ok tokens) ∧ validateOptions options = .error e)) :
    modulenameCmd parse wrapped args options .fn pa =
      .returned [.cbCall (.failure e) true] := by
  rw [modulenameCmd_fn]
  rcases h with h | ⟨⟨tokens, ht⟩, ho⟩
  · simp [runCallbackMode, h]
  · simp [runCallbackMode, ht, ho]

/-- C8 witness: a non-array-like `args` at a concrete input is reported
through a deferred callback invocation, not a throw. -/
theorem c8_validation_deferred_witness :
    modulenameCmd (fun _ => .success ⟨false, false, 0, 0, []⟩ "") (fun _ => .exit 0)
      .notArrayLike .undef .fn true =
      .returned [.cbCall (.failure ⟨"TypeError", "args must be Array-like"⟩) true] :=
  c8_validation_deferred (fun _ => .success ⟨false, false, 0, 0, []⟩ "") (fun _ => .exit 0)
    .notArrayLike .undef true ⟨"TypeError", "args must be Array-like"⟩ (Or.inl rfl)

/-- C1: when validation passes and the parse succeeds with no terminal flag
and exactly one positional argument, the wrapped function is invoked exactly
once with `files` the positional sequence and `verbosity` the verbose count
minus the quiet count, and the completion reports exactly what the wrapped
function reported. -/
theorem c1_valid_dispatch (parse : List String → ParseResult) (wrapped : CmdOpts → CbRes)
    (args : ArgsVal) (options : OptionsArg) (pa : Bool)
    (tokens : List String) (opts : ArgOpts) (output : String)
    (hargs : validateArgs args = .ok tokens)
    (hopts : validateOptions options = .ok ())
    (hparse : parse tokens = .success opts output)
    (hhelp : opts.help = false) (hver : opts.version = false)
    (hpos : opts.positional.length = 1) :
    modulenameCmd parse wrapped args options .fn pa =
      .returned (runCallbackMode parse wrapped args options) ∧
    wrappedCalls (runCallbackMode parse wrapped args options) =
      [⟨opts.positional, (opts.verbose : Int) - (opts.quiet : Int)⟩] ∧
    completionOf (runCallbackMode parse wrapped args options) =
      some (wrapped ⟨opts.positional, (opts.verbose : Int) - (opts.quiet : Int)⟩) := by
  refine ⟨modulenameCmd_fn parse wrapped args options pa, ?_, ?_⟩ <;>
    rw [runCallbackMode_parse parse wrapped args options tokens hargs hopts, hparse] <;>
    by_cases ho : output = "" <;>
    simp [parseHandler, wrappedCalls, completionOf, hhelp, hver, hpos, ho]

/-- C1 witness: `["node", "cmd", "-v", "-v", "-q", "input.txt"]`-style parse
result with one positional and verbosity `2 − 1 = 1`; the wrapped function
reports 0 and the completion carries exit code 0. -/
theorem c1_valid_dispatch_witness :
    modulenameCmd (fun _ => .success ⟨false, false, 1, 2, ["input.txt"]⟩ "")
        (fun _ => .exit 0) .nullv .undef .fn true =
      .returned (runCallbackMode (fun _ => .success ⟨false, false, 1, 2, ["input.txt"]⟩ "")
        (fun _ => .exit 0) .nullv .undef) ∧
    wrappedCalls (runCallbackMode (fun _ => .success ⟨false, false, 1, 2, ["input.txt"]⟩ "")
        (fun _ => .exit 0) .nullv .undef) = [⟨["input.txt"], 1⟩] ∧
    completionOf (runCallbackMode (fun _ => .success ⟨false, false, 1, 2, ["input.txt"]⟩ "")
        (fun _ => .exit 0) .nullv .undef) = some (.exit 0) :=
  c1_valid_dispatch (fun _ => .success ⟨false, false, 1, 2, ["input.txt"]⟩ "")
    (fun _ => .exit 0) .nullv .undef true [] ⟨false, false, 1, 2, ["input.txt"]⟩ ""
    rfl rfl rfl rfl rfl rfl

/-- C2: when validation passes and the parse succeeds with no terminal flag
but a positional count other than one, the wrapped function is never
invoked, exactly one message is written to the error stream, and the
completion reports exit code 1. -/
theorem c2_wrong_positional_count (parse : List String → ParseResult)
    (wrapped : CmdOpts → CbRes) (args : ArgsVal) (options : OptionsArg) (pa : Bool)
    (tokens : List String) (opts : ArgOpts) (output : String)
    (hargs : validateArgs args = .ok tokens)
    (hopts : validateOptions options = .ok ())
    (hparse : parse tokens = .success opts output)
    (hhelp : opts.help = false) (hver : opts.version = false)
    (hpos : opts.positional.length ≠ 1) :
    modulenameCmd parse wrapped args options .fn pa =
      .returned (runCallbackMode parse wrapped args options) ∧
    wrappedCalls (runCallbackMode parse wrapped args options) = [] ∧
    errWrites (runCallbackMode parse wrapped args options) =
      ["Error: Exactly one argument is required.\n"] ∧
    completionOf (runCallbackMode parse wrapped args options) = some (.exit 1) := by
  refine ⟨modulenameCmd_fn parse wrapped args options pa, ?_, ?_, ?_⟩ <;>
    rw [runCallbackMode_parse parse wrapped args options tokens hargs hopts, hparse] <;>
    by_cases ho : output = "" <;>
    simp [parseHandler, wrappedCalls, errWrites, completionOf, hhelp, hver, hpos, ho]

/-- C2 witness: a parse with zero positionals (the `invoke(["node","cmd"])`
scenario) writes the one error message and exits 1 without calling the
wrapped function. -/
theorem c2_wrong_positional_count_witness :
    modulenameCmd (fun _ => .success ⟨false, false, 0, 0, []⟩ "") (fun _ => .exit 0)
        .nullv .undef .fn true =
      .returned (runCallbackMode (fun _ => .success ⟨false, false, 0, 0, []⟩ "")
        (fun _ => .exit 0) .nullv .undef) ∧
    wrappedCalls (runCallbackMode (fun _ => .success ⟨false, false, 0, 0, []⟩ "")
        (fun _ => .exit 0) .nullv .undef) = [] ∧
    errWrites (runCallbackMode (fun _ => .success ⟨false, false, 0, 0, []⟩ "")
        (fun _ => .exit 0) .nullv .undef) =
      ["Error: Exactly one argument is required.\n"] ∧
    completionOf (runCallbackMode (fun _ => .success ⟨false, false, 0, 0, []⟩ "")
        (fun _ => .exit 0) .nullv .undef) = some (.exit 1) :=
  c2_wrong_positional_count (fun _ => .success ⟨false, false, 0, 0, []⟩ "")
    (fun _ => .exit 0) .nullv .undef true [] ⟨false, false, 0, 0, []⟩ ""
    rfl rfl rfl rfl rfl (by decide)

/-- C3: when validation passes and the parse succeeds with the help or
version terminal flag set and rendered output text, the completion reports
exit code 0, the rendered text is written to the output stream, and the
wrapped function is never invoked. -/
theorem c3_terminal_flags (parse : List String → ParseResult) (wrapped : CmdOpts → CbRes)
    (args : ArgsVal) (options : OptionsArg) (pa : Bool)
    (tokens : List String) (opts : ArgOpts) (output : String)
    (hargs : validateArgs args = .ok tokens)
    (hopts : validateOptions options = .ok ())
    (hparse : parse tokens = .success opts output)
    (hterm : (opts.help || opts.version) = true)
    (hout : output ≠ "") :
    modulenameCmd parse wrapped args options .fn pa =
      .returned (runCallbackMode parse wrapped args options) ∧
    completionOf (runCallbackMode parse wrapped args options) = some (.exit 0) ∧
    outWrites (runCallbackMode parse wrapped args options) = [output ++ "\n"] ∧
    wrappedCalls (runCallbackMode parse wrapped args options) = [] := by
  refine ⟨modulenameCmd_fn parse wrapped args options pa, ?_, ?_, ?_⟩ <;>
    rw [runCallbackMode_parse parse wrapped args options tokens hargs hopts, hparse] <;>
    simp [parseHandler, wrappedCalls, outWrites, completionOf, hterm, hout]

/-- C3 witness: an explicit `--help` parse result with rendered usage text
exits 0, writes the text to the output stream, and skips the wrapped
function. -/
theorem c3_terminal_flags_witness :
    modulenameCmd (fun _ => .success ⟨true, false, 0, 0, []⟩ "Usage: cmd [options] [args...]")
        (fun _ => .exit 0) .nullv .undef .fn true =
      .returned (runCallbackMode
        (fun _ => .success ⟨true, false, 0, 0, []⟩ "Usage: cmd [options] [args...]")
        (fun _ => .exit 0) .nullv .undef) ∧
    completionOf (runCallbackMode
        (fun _ => .success ⟨true, false, 0, 0, []⟩ "Usage: cmd [options] [args...]")
        (fun _ => .exit 0) .nullv .undef) = some (.exit 0) ∧
    outWrites (runCallbackMode
        (fun _ => .success ⟨true, false, 0, 0, []⟩ "Usage: cmd [options] [args...]")
        (fun _ => .exit 0) .nullv .undef) = ["Usage: cmd [options] [args...]\n"] ∧
    wrappedCalls (runCallbackMode
        (fun _ => .success ⟨true, false, 0, 0, []⟩ "Usage: cmd [options] [args...]")
        (fun _ => .exit 0) .nullv .undef) = [] :=
  c3_terminal_flags (fun _ => .success ⟨true, false, 0, 0, []⟩ "Usage: cmd [options] [args...]")
    (fun _ => .exit 0) .nullv .undef true [] ⟨true, false, 0, 0, []⟩
    "Usage: cmd [options] [args...]" rfl rfl rfl rfl (by decide)

/-- C6: when validation passes and the parse fails, the rendered help text
(when present, else the error's name and message) is written to the error
stream, the completion reports exit code 1, and the wrapped function is
never invoked. -/
theorem c6_parse_error (parse : List String → ParseResult) (wrapped : CmdOpts → CbRes)
    (args : ArgsVal) (options : OptionsArg) (pa : Bool)
    (tokens : List String) (e : JsError) (output : String)
    (hargs : validateArgs args = .ok tokens)
    (hopts : validateOptions options = .ok ())
    (hparse : parse tokens = .failure e output) :
    modulenameCmd parse wrapped args options .fn pa =
      .returned (runCallbackMode parse wrapped args options) ∧
    wrappedCalls (runCallbackMode parse wrapped args options) = [] ∧
    errWrites (runCallbackMode parse wrapped args options) =
      [if output ≠ "" then output ++ "\n"
       else e.name ++ ": " ++ e.message ++ "\n"] ∧
    completionOf (runCallbackMode parse wrapped args options) = some (.exit 1) := by
  refine ⟨modulenameCmd_fn parse wrapped args options pa, ?_, ?_, ?_⟩ <;>
    rw [runCallbackMode_parse parse wrapped args options tokens hargs hopts, hparse] <;>
    simp [parseHandler, wrappedCalls, errWrites, completionOf]

/-- C6 witness: a strict-mode rejection of `--bogus` with rendered usage
text goes to the error stream with exit code 1 and no wrapped-function
call. -/
theorem c6_parse_error_witness :
    modulenameCmd (fun _ => .failure ⟨"YError", "Unknown argument: bogus"⟩
        "Usage: cmd [options] [args...]\nUnknown argument: bogus")
        (fun _ => .exit 0) .nullv .undef .fn true =
      .returned (runCallbackMode (fun _ => .failure ⟨"YError", "Unknown argument: bogus"⟩
        "Usage: cmd [options] [args...]\nUnknown argument: bogus")
        (fun _ => .exit 0) .nullv .undef) ∧
    wrappedCalls (runCallbackMode (fun _ => .failure ⟨"YError", "Unknown argument: bogus"⟩
        "Usage: cmd [options] [args...]\nUnknown argument: bogus")
        (fun _ => .exit 0) .nullv .undef) = [] ∧
    errWrites (runCallbackMode (fun _ => .failure ⟨"YError", "Unknown argument: bogus"⟩
        "Usage: cmd [options] [args...]\nUnknown argument: bogus")
        (fun _ => .exit 0) .nullv .undef) =
      [if ("Usage: cmd [options] [args...]\nUnknown argument: bogus" : String) ≠ ""
       then "Usage: cmd [options] [args...]\nUnknown argument: bogus" ++ "\n"
       else "YError" ++ ": " ++ "Unknown argument: bogus" ++ "\n"] ∧
    completionOf (runCallbackMode (fun _ => .failure ⟨"YError", "Unknown argument: bogus"⟩
        "Usage: cmd [options] [args...]\nUnknown argument: bogus")
        (fun _ => .exit 0) .nullv .undef) = some (.exit 1) :=
  c6_parse_error (fun _ => .failure ⟨"YError", "Unknown argument: bogus"⟩
      "Usage: cmd [options] [args...]\nUnknown argument: bogus")
    (fun _ => .exit 0) .nullv .undef true [] ⟨"YError", "Unknown argument: bogus"⟩
    "Usage: cmd [options] [args...]\nUnknown argument: bogus" rfl rfl rfl

/-- C5: with the callback omitted, options not a function, and a Promise
primitive available, the entry point returns a promise carrying the effects
of the internally re-invoked callback-style run; the promise always settles,
resolving exactly to the exit code the callback style reports and rejecting
exactly with the error the callback style reports. -/
theorem c5_promise_wraps_callback (parse : List String → ParseResult)
    (wrapped : CmdOpts → CbRes) (args : ArgsVal) (options : OptionsArg)
    (hopt : options ≠ OptionsArg.fnOpt) :
    modulenameCmd parse wrapped args options .falsy true =
      .promised (promiseOf (runCallbackMode parse wrapped args options))
        (runCallbackMode parse wrapped args options) ∧
    promiseOf (runCallbackMode parse wrapped args options) ≠ .pending ∧
    (∀ c, promiseOf (runCallbackMode parse wrapped args options) = .resolves c ↔
      completionOf (runCallbackMode parse wrapped args options) = some (.exit c)) ∧
    (∀ e, promiseOf (runCallbackMode parse wrapped args options) = .rejects e ↔
      completionOf (runCallbackMode parse wrapped args options) = some (.failure e)) := by
  obtain ⟨r, hr⟩ := completionOf_runCallbackMode parse wrapped args options
  refine ⟨?_, ?_⟩
  · cases options <;> first | rfl | exact absurd rfl hopt
  · cases r <;> simp [promiseOf, hr]

/-- C5 witness: at a concrete invocation the returned promise resolves to
the exit code 0 that the callback style reports. -/
theorem c5_promise_wraps_callback_witness :
    modulenameCmd (fun _ => .success ⟨false, false, 0, 0, ["f.txt"]⟩ "")
        (fun _ => .exit 0) .nullv .undef .falsy true =
      .promised (promiseOf (runCallbackMode
          (fun _ => .success ⟨false, false, 0, 0, ["f.txt"]⟩ "")
          (fun _ => .exit 0) .nullv .undef))
        (runCallbackMode (fun _ => .success ⟨false, false, 0, 0, ["f.txt"]⟩ "")
          (fun _ => .exit 0) .nullv .undef) ∧
    promiseOf (runCallbackMode (fun _ => .success ⟨false, false, 0, 0, ["f.txt"]⟩ "")
      (fun _ => .exit 0) .nullv .undef) ≠ .pending :=
  ⟨(c5_promise_wraps_callback (fun _ => .success ⟨false, false, 0, 0, ["f.txt"]⟩ "")
      (fun _ => .exit 0) .nullv .undef (by decide)).1,
   (c5_promise_wraps_callback (fun _ => .success ⟨false, false, 0, 0, ["f.txt"]⟩ "")
      (fun _ => .exit 0) .nullv .undef (by decide)).2.1⟩

/-- C7: a null or undefined `args` is normalized to an empty token list and
(when the parse of no tokens yields no positionals and no terminal flag)
proceeds into the missing-required-argument path; an array-like `args`
shorter than 2 is rejected with a RangeError delivered through a deferred
callback invocation; an array-like `args` of length at least 2 has its first
two entries dropped and the rest stringified before parsing. -/
theorem c7_rawargs_normalization (parse : List String → ParseResult)
    (wrapped : CmdOpts → CbRes) (options : OptionsArg)
    (hopts : validateOptions options = .ok ()) (elems : List JsVal) :
    (validateArgs .undef = .ok [] ∧ validateArgs .nullv = .ok []) ∧
    (∀ opts output, parse [] = .success opts output → opts.help = false →
      opts.version = false → opts.positional = [] →
      errWrites (runCallbackMode parse wrapped .nullv options) =
        ["Error: Exactly one argument is required.\n"] ∧
      completionOf (runCallbackMode parse wrapped .nullv options) = some (.exit 1)) ∧
    (elems.length < 2 →
      runCallbackMode parse wrapped (.arrayLike elems) options =
        [.cbCall (.failure ⟨"RangeError", "args must have at least 2 elements"⟩) true]) ∧
    (2 ≤ elems.length →
      validateArgs (.arrayLike elems) = .ok ((elems.drop 2).map jsToString) ∧
      runCallbackMode parse wrapped (.arrayLike elems) options =
        parseHandler wrapped (parse ((elems.drop 2).map jsToString))) := by
  refine ⟨⟨rfl, rfl⟩, ?_, ?_, ?_⟩
  · intro opts output hparse hhelp hver hpos
    rw [runCallbackMode_parse parse wrapped .nullv options [] rfl hopts, hparse]
    constructor <;>
      by_cases ho : output = "" <;>
      simp [parseHandler, errWrites, completionOf, hhelp, hver, hpos, ho]
  · intro hlen
    simp [runCallbackMode, validateArgs, hlen]
  · intro hlen
    have hv : validateArgs (.arrayLike elems) = .ok ((elems.drop 2).map jsToString) := by
      simp [validateArgs, Nat.not_lt.mpr hlen]
    exact ⟨hv, runCallbackMode_parse parse wrapped (.arrayLike elems) options _ hv hopts⟩

/-- C7 witness: `null` args reach the missing-argument path; a one-element
array-like is rejected with the RangeError; a three-element array-like is
reduced to its stringified tail before parsing. -/
theorem c7_rawargs_normalization_witness :
    validateArgs .nullv = .ok [] ∧
    errWrites (runCallbackMode (fun _ => .success ⟨false, false, 0, 0, []⟩ "")
        (fun _ => .exit 0) .nullv .undef) =
      ["Error: Exactly one argument is required.\n"] ∧
    runCallbackMode (fun _ => .success ⟨false, false, 0, 0, []⟩ "") (fun _ => .exit 0)
        (.arrayLike [.str "node"]) .undef =
      [.cbCall (.failure ⟨"RangeError", "args must have at least 2 elements"⟩) true] ∧
    validateArgs (.arrayLike [.str "node", .str "cmd", .num 3]) = .ok ["3"] := by
  have h1 := c7_rawargs_normalization (fun _ => ParseResult.success ⟨false, false, 0, 0, []⟩ "")
    (fun _ => CbRes.exit 0) .undef rfl [JsVal.str "node"]
  have h2 := c7_rawargs_normalization (fun _ => ParseResult.success ⟨false, false, 0, 0, []⟩ "")
    (fun _ => CbRes.exit 0) .undef rfl [JsVal.str "node", JsVal.str "cmd", JsVal.num 3]
  exact ⟨h1.1.2, (h1.2.1 ⟨false, false, 0, 0, []⟩ "" rfl rfl rfl rfl).1,
    h1.2.2.1 (by decide), (h2.2.2.2 (by decide)).1⟩
